import Mathlib

/-!
Verification of the SensorySurvey3D backend (`src/backend/survey3d.py`).

The Python module is shallowly embedded below: each dataclass becomes a
structure, each method a function; in-place mutation of `self` becomes
explicit state passing (methods that mutate return the updated object);
Python exceptions (`KeyError`, `TypeError`, `AttributeError`) become an
`Except PyErr` result; the system clock read by `datetime.now()` becomes an
explicit `DateTime` argument; the file written by `json.dump` becomes an
explicit `FileWrite` value carrying the path and the dictionary that was
serialized.  Python values flowing through dictionaries are dynamically
typed, so dictionary values are a JSON-like `JVal`.
-/

namespace Survey3D

/-- JSON-like values, as stored in Python dictionaries and lists. -/
inductive JVal where
  | s (v : String)
  | n (v : Int)
  | arr (l : List JVal)
  | obj (l : List (String × JVal))

/-- A Python dictionary with string keys: an insertion-ordered list of
key/value pairs (keys produced by the embedded code are distinct). -/
structure Dict where
  entries : List (String × JVal)

/-- The Python exceptions the embedded code can raise. -/
inductive PyErr where
  | keyError (key : String)
  | typeError (msg : String)
  | attributeError (msg : String)

/-- Lookup of a key in a dictionary, `none` when absent. -/
def Dict.get? (d : Dict) (k : String) : Option JVal :=
  go d.entries
where
  go : List (String × JVal) → Option JVal
    | [] => none
    | (k', v) :: rest => if k' = k then some v else go rest

/-- Python `dictionary[k]`: the value when the key is present, otherwise a
raised `KeyError`. -/
def Dict.item (d : Dict) (k : String) : Except PyErr JVal :=
  match d.get? k with
  | some v => .ok v
  | none => .error (.keyError k)

/-- Python `k in dictionary`. -/
def Dict.contains (d : Dict) (k : String) : Bool :=
  (d.get? k).isSome

/-- The ordered list of keys of a dictionary. -/
def Dict.keys (d : Dict) : List String :=
  d.entries.map Prod.fst

/-- A wall-clock reading, as returned by `datetime.now()`. -/
structure DateTime where
  year : Nat
  month : Nat
  day : Nat
  hour : Nat
  minute : Nat
  second : Nat

/-- Zero-padding to two digits, as `strftime` does for `%m %d %H %M %S`. -/
def pad2 (n : Nat) : String :=
  if n < 10 then "0" ++ toString n else toString n

/-- Zero-padding to four digits, as `strftime` does for `%Y`. -/
def pad4 (n : Nat) : String :=
  if n < 10 then "000" ++ toString n
  else if n < 100 then "00" ++ toString n
  else if n < 1000 then "0" ++ toString n
  else toString n

/-- Embeds `now.strftime("%Y-%m-%d")`. -/
def strftimeYmd (t : DateTime) : String :=
  pad4 t.year ++ "-" ++ pad2 t.month ++ "-" ++ pad2 t.day

/-- Embeds `now.strftime("%H-%M-%S")`. -/
def strftimeHMS (t : DateTime) : String :=
  pad2 t.hour ++ "-" ++ pad2 t.minute ++ "-" ++ pad2 t.second

/-- Python `a.endswith(b)` on strings (via character lists, so that it computes). -/
def strEndsWith (a b : String) : Bool :=
  b.data.isSuffixOf a.data

/-- Embeds `os.path.join(a, b)` for a relative second component. -/
def osPathJoin (a b : String) : String :=
  if a = "" then b
  else if strEndsWith a "/" then a ++ b
  else a ++ "/" ++ b

/-- The `Quality` dataclass.  Its five attributes receive whatever values a
dictionary supplies, so they are dynamically typed. -/
structure Quality where
  intensity : JVal
  naturalness : JVal
  pain : JVal
  depth : JVal
  type : JVal

/-- Embeds `Quality.toDict`: the five properties as a dictionary. -/
def Quality.toDict (self : Quality) : Dict :=
  ⟨[("intensity", self.intensity),
    ("naturalness", self.naturalness),
    ("pain", self.pain),
    ("depth", self.depth),
    ("type", self.type)]⟩

/-- Embeds `Quality.fromDict`: populates the five fields from the dictionary, in
source order; each `dictionary[...]` access raises `KeyError` when the key
is absent. -/
def Quality.fromDict (self : Quality) (dictionary : Dict) : Except PyErr Quality := do
  let intensity ← dictionary.item "intensity"
  let naturalness ← dictionary.item "naturalness"
  let pain ← dictionary.item "pain"
  let depth ← dictionary.item "depth"
  let type ← dictionary.item "type"
  return { self with intensity := intensity, naturalness := naturalness,
                     pain := pain, depth := depth, type := type }

/-- The `ProjectedField` dataclass.  `model`, `name`, `vertices` and
`hotSpot` receive dictionary values unchecked, so they are dynamically
typed; `qualities` holds `Quality` objects. -/
structure ProjectedField where
  model : JVal
  name : JVal
  vertices : JVal
  hotSpot : JVal
  qualities : List Quality

/-- Embeds `ProjectedField.toDict`.  Note: the source stores `self.vertices` under
the literal key `"verices"`. -/
def ProjectedField.toDict (self : ProjectedField) : Dict :=
  ⟨[("model", self.model),
    ("name", self.name),
    ("verices", self.vertices),
    ("hotSpot", self.hotSpot),
    ("qualities", JVal.arr (self.qualities.map (fun quality => JVal.obj quality.toDict.entries)))]⟩

/-- The loop body `quality = Quality().fromDict(quality)` of
`ProjectedField.fromDict`: `Quality()` calls the dataclass constructor with
none of its five required arguments, so any non-empty iteration raises
`TypeError` at the first element, before `fromDict` is reached. -/
def qualityLoop : List JVal → Except PyErr (List Quality)
  | [] => .ok []
  | _ :: _ => .error (.typeError "Quality.__init__ missing 5 required positional arguments")

/-- Embeds `ProjectedField.fromDict`: five `dictionary[...]` accesses in source
order, then the reconstruction loop over `dictionary["qualities"]`
(iterating a non-list raises `TypeError`). -/
def ProjectedField.fromDict (self : ProjectedField) (dictionary : Dict) :
    Except PyErr ProjectedField := do
  let model ← dictionary.item "model"
  let name ← dictionary.item "name"
  let vertices ← dictionary.item "vertices"
  let hotSpot ← dictionary.item "hotSpot"
  let qualitiesVal ← dictionary.item "qualities"
  match qualitiesVal with
  | .arr l => do
      let qualities ← qualityLoop l
      return { self with model := model, name := name, vertices := vertices,
                         hotSpot := hotSpot, qualities := qualities }
  | _ => .error (.typeError "object is not iterable")

/-- The `Survey` dataclass.  `participant`, `date`, `startTime` and
`endTime` are declared `str` and are strings on every program path
(constructor, `strftime`, filename formatting). -/
structure Survey where
  participant : String
  config : JVal
  date : String := ""
  startTime : String := ""
  endTime : String := ""
  projectedFields : List ProjectedField := []

/-- Embeds `Survey.startDateTimeNow`: sets `date` and `startTime` from the clock. -/
def Survey.startDateTimeNow (self : Survey) (now : DateTime) : Survey :=
  { self with date := strftimeYmd now, startTime := strftimeHMS now }

/-- Embeds `Survey.endTimeNow`: sets `endTime` from the clock. -/
def Survey.endTimeNow (self : Survey) (now : DateTime) : Survey :=
  { self with endTime := strftimeHMS now }

/-- Embeds `Survey.toDict`. -/
def Survey.toDict (self : Survey) : Dict :=
  ⟨[("participant", JVal.s self.participant),
    ("config", self.config),
    ("date", JVal.s self.date),
    ("startTime", JVal.s self.startTime),
    ("endTime", JVal.s self.endTime),
    ("projectedFields",
      JVal.arr (self.projectedFields.map (fun f => JVal.obj f.toDict.entries)))]⟩

/-- A file written by `json.dump(..., file, indent = 4)`: the path opened
for writing and the dictionary that was serialized (as indented JSON). -/
structure FileWrite where
  path : String
  content : Dict

/-- Embeds `Survey.saveSurvey`: when `projectedFields` is non-empty (Python list
truthiness) it writes `toDict()` to `{participant}_{date}_{startTime}.json`
under `path` and returns `True`; otherwise it only prints a diagnostic and
returns `False`.  The returned `Survey` is the post-call object (the body
never assigns to `self`), and the list collects the files written. -/
def Survey.saveSurvey (self : Survey) (path : String) :
    Bool × Survey × List FileWrite :=
  if self.projectedFields.isEmpty then
    (false, self, [])
  else
    let filename := self.participant ++ "_" ++ self.date ++ "_" ++ self.startTime ++ ".json"
    (true, self, [⟨osPathJoin path filename, self.toDict⟩])

/-- The loop body `field = ProjectedField.fromDict(field)` of
`Survey.fromDict`: the unbound method is called with the dictionary as
`self` and no `dictionary` argument, so any non-empty iteration raises
`TypeError` at the first element. -/
def projectedFieldLoop : List JVal → Except PyErr (List ProjectedField)
  | [] => .ok []
  | _ :: _ => .error (.typeError "fromDict missing 1 required positional argument")

/-- Embeds `Survey.fromDict`: six `dictionary[...]` accesses in source order, then
the reconstruction loop over `dictionary["projectedFields"]`.  The
dataclass declares `participant`, `date`, `startTime`, `endTime` as `str`,
so the embedding requires string values there (and a list under
`projectedFields`); other shapes leave Python's dynamic typing and are
mapped to `TypeError`. -/
def Survey.fromDict (self : Survey) (dictionary : Dict) : Except PyErr Survey := do
  let participant ← dictionary.item "participant"
  let config ← dictionary.item "config"
  let date ← dictionary.item "date"
  let startTime ← dictionary.item "startTime"
  let endTime ← dictionary.item "endTime"
  let fieldsVal ← dictionary.item "projectedFields"
  match participant, date, startTime, endTime, fieldsVal with
  | .s p, .s d, .s st, .s et, .arr l => do
      let fields ← projectedFieldLoop l
      return { self with participant := p, config := config, date := d,
                         startTime := st, endTime := et, projectedFields := fields }
  | _, _, _, _, _ => .error (.typeError "field type mismatch")

/-- The `SurveyManager` state: the participant configuration loaded at
construction, the data path, and the at-most-one active survey
(`self.survey`, `None` when idle). -/
structure SurveyManager where
  survey : Option Survey
  config : Dict
  data_path : String

/-- Embeds `SurveyManager.newSurvey`.  `if self.survey:` is Python truthiness: a
`Survey` object is always truthy, `None` is falsy.  The
unknown-participant branch prints a diagnostic and falls off the end of
the function, returning `None`; the result is therefore `Option Bool`
(`none` is Python `None`). -/
def SurveyManager.newSurvey (self : SurveyManager) (participant : String)
    (now : DateTime) : Option Bool × SurveyManager :=
  match self.survey with
  | some _ => (some false, self)
  | none =>
    match self.config.get? participant with
    | some cfg =>
        let survey : Survey := { participant := participant, config := cfg }
        let survey := survey.startDateTimeNow now
        (some true, { self with survey := some survey })
    | none => (none, self)

/-- Embeds `SurveyManager.saveSurvey`: `self.survey.endTimeNow()` is called
unconditionally first — when `self.survey` is `None` this raises
`AttributeError`.  Then `Survey.saveSurvey` runs; on `True` the active
survey is cleared, on `False` it is kept (already stamped with the end
time). -/
def SurveyManager.saveSurvey (self : SurveyManager) (now : DateTime) :
    Except PyErr (Bool × SurveyManager × List FileWrite) :=
  match self.survey with
  | none => .error (.attributeError "NoneType object has no attribute endTimeNow")
  | some survey =>
      let survey := survey.endTimeNow now
      match survey.saveSurvey self.data_path with
      | (true, _, writes) => .ok (true, { self with survey := none }, writes)
      | (false, post, writes) => .ok (false, { self with survey := some post }, writes)

/-! Concrete fixtures, following the example scenario of the specification
(numeric quality values are integers; the code never computes with them). -/

/-- A concrete `Quality`. -/
def qEx : Quality := ⟨.n 8, .n 5, .n 9, .s "deep", .s "sharp"⟩

/-- A concrete `ProjectedField` holding one quality. -/
def pfEx : ProjectedField :=
  ⟨.s "torso", .s "chest", .arr [.n 1, .n 2, .n 3], .arr [.n 2], [qEx]⟩

/-- A concrete `Survey` with one projected field. -/
def sEx : Survey :=
  { participant := "p1", config := .obj [("arm", .s "left")],
    date := "2024-01-02", startTime := "10-20-30", endTime := "",
    projectedFields := [pfEx] }

/-- A concrete `Survey` with no projected fields. -/
def sEmptyEx : Survey :=
  { participant := "p1", config := .obj [("arm", .s "left")],
    date := "2024-01-02", startTime := "10-20-30", endTime := "",
    projectedFields := [] }

/-- A concrete clock reading. -/
def tEx : DateTime := ⟨2024, 1, 2, 11, 30, 45⟩

/-- A concrete idle manager whose configuration knows participant `"p1"`. -/
def mgrIdleEx : SurveyManager :=
  ⟨none, ⟨[("p1", .obj [("arm", .s "left")])]⟩, "data"⟩

/-- A concrete active manager whose active survey has no projected fields. -/
def mgrEmptyEx : SurveyManager :=
  ⟨some sEmptyEx, ⟨[("p1", .obj [("arm", .s "left")])]⟩, "data"⟩

/-- A concrete active manager whose active survey has one projected field. -/
def mgrFullEx : SurveyManager :=
  ⟨some sEx, ⟨[("p1", .obj [("arm", .s "left")])]⟩, "data"⟩

/-- C1: the round-trip law fails on the code.  `Quality` does round-trip,
but `ProjectedField.fromDict (ProjectedField.toDict pf)` raises
`KeyError: vertices` (because `toDict` stores the vertices under the
misspelled key `"verices"`), and `Survey.fromDict (Survey.toDict s)` on a
survey with a projected field raises `TypeError` (the loop calls the
unbound `ProjectedField.fromDict(field)` without its `dictionary`
argument), so neither reconstructs an entity equal to the original. -/
theorem roundtrip_law_fails_for_projectedField_and_survey :
    Quality.fromDict qEx qEx.toDict = .ok qEx ∧
    ProjectedField.fromDict pfEx pfEx.toDict = .error (.keyError "vertices") ∧
    Survey.fromDict sEx sEx.toDict =
      .error (.typeError "fromDict missing 1 required positional argument") :=
  ⟨rfl, rfl, rfl⟩

/-- C2: for every `ProjectedField`, `toDict` returns the keys
`model, name, verices, hotSpot, qualities` — the vertex-index sequence is
stored under the misspelled key `"verices"`, and the key `"vertices"`
required by the claim is absent. -/
theorem projectedField_toDict_emits_verices :
    (∀ pf : ProjectedField,
      pf.toDict.keys = ["model", "name", "verices", "hotSpot", "qualities"]) ∧
    "vertices" ∉ pfEx.toDict.keys :=
  ⟨fun _ => rfl, by decide⟩

/-- C10: `Survey.saveSurvey` never modifies the survey: whether it reports
success or failure, every field of the post-call survey equals its
pre-call value (the method body reads `self` but never assigns to it). -/
theorem survey_save_frame (S : Survey) (d : String) :
    ((S.saveSurvey d).2.1).participant = S.participant ∧
    ((S.saveSurvey d).2.1).config = S.config ∧
    ((S.saveSurvey d).2.1).date = S.date ∧
    ((S.saveSurvey d).2.1).startTime = S.startTime ∧
    ((S.saveSurvey d).2.1).endTime = S.endTime ∧
    ((S.saveSurvey d).2.1).projectedFields = S.projectedFields := by
  have h : (S.saveSurvey d).2.1 = S := by
    unfold Survey.saveSurvey
    split <;> rfl
  rw [h]
  exact ⟨rfl, rfl, rfl, rfl, rfl, rfl⟩

/-- Helper: `Survey.saveSurvey` on an empty survey reports failure and
writes nothing. -/
theorem Survey.saveSurvey_empty (S : Survey) (d : String)
    (he : S.projectedFields = []) : S.saveSurvey d = (false, S, []) := by
  simp [Survey.saveSurvey, he]

/-- Helper: `Survey.saveSurvey` on a non-empty survey writes one file,
named `{participant}_{date}_{startTime}.json` under `d`, containing
`toDict()`, and reports success. -/
theorem Survey.saveSurvey_nonempty (S : Survey) (d : String)
    (hne : S.projectedFields ≠ []) :
    S.saveSurvey d =
      (true, S,
       [⟨osPathJoin d (S.participant ++ "_" ++ S.date ++ "_" ++ S.startTime ++ ".json"),
         S.toDict⟩]) := by
  obtain ⟨a, l, hl⟩ := List.exists_cons_of_ne_nil hne
  simp [Survey.saveSurvey, hl]

/-- Helper: `SurveyManager.saveSurvey` on an active manager unfolds to the
end-time stamping followed by the save and the conditional clearing. -/
theorem SurveyManager.saveSurvey_eq (m : SurveyManager) (s : Survey)
    (now : DateTime) (h : m.survey = some s) :
    m.saveSurvey now =
      match (s.endTimeNow now).saveSurvey m.data_path with
      | (true, _, writes) => .ok (true, { m with survey := none }, writes)
      | (false, post, writes) => .ok (false, { m with survey := some post }, writes) := by
  unfold SurveyManager.saveSurvey
  rw [h]

/-- Helper: `SurveyManager.saveSurvey` on an active but empty survey stamps
the end time, reports failure, keeps the (stamped) survey active, and
writes nothing. -/
theorem SurveyManager.saveSurvey_active_empty (m : SurveyManager) (s : Survey)
    (now : DateTime) (h : m.survey = some s) (he : s.projectedFields = []) :
    m.saveSurvey now =
      .ok (false, { m with survey := some { s with endTime := strftimeHMS now } }, []) := by
  rw [SurveyManager.saveSurvey_eq m s now h,
    Survey.saveSurvey_empty _ _ (show (s.endTimeNow now).projectedFields = [] from he)]
  rfl

/-- Helper: `SurveyManager.saveSurvey` on an active non-empty survey stamps
the end time, writes the stamped survey's `toDict()` to
`{participant}_{date}_{startTime}.json` under the data path, clears the
active survey and reports success. -/
theorem SurveyManager.saveSurvey_active_nonempty (m : SurveyManager) (s : Survey)
    (now : DateTime) (h : m.survey = some s) (hne : s.projectedFields ≠ []) :
    m.saveSurvey now =
      .ok (true, { m with survey := none },
        [⟨osPathJoin m.data_path
            (s.participant ++ "_" ++ s.date ++ "_" ++ s.startTime ++ ".json"),
          (s.endTimeNow now).toDict⟩]) := by
  rw [SurveyManager.saveSurvey_eq m s now h,
    Survey.saveSurvey_nonempty _ _ (show (s.endTimeNow now).projectedFields ≠ [] from hne)]
  rfl

/-- C3: `Survey.saveSurvey` reports failure and writes no file when
`projectedFields` is empty; otherwise it writes exactly one file named
`{participant}_{date}_{startTime}.json` under the given directory,
containing the serialization of `toDict()`, and reports success. -/
theorem survey_save_spec (S : Survey) (d : String) :
    (S.projectedFields = [] → S.saveSurvey d = (false, S, [])) ∧
    (S.projectedFields ≠ [] →
      S.saveSurvey d =
        (true, S,
         [⟨osPathJoin d (S.participant ++ "_" ++ S.date ++ "_" ++ S.startTime ++ ".json"),
           S.toDict⟩])) :=
  ⟨Survey.saveSurvey_empty S d, Survey.saveSurvey_nonempty S d⟩

/-- Witness for C3 at concrete surveys. -/
theorem survey_save_spec_witness :
    sEmptyEx.saveSurvey "data" = (false, sEmptyEx, []) ∧
    sEx.saveSurvey "data" =
      (true, sEx, [⟨"data/p1_2024-01-02_10-20-30.json", sEx.toDict⟩]) := by
  constructor
  · exact (survey_save_spec sEmptyEx "data").1 rfl
  · have hpath :
        osPathJoin "data"
          (sEx.participant ++ "_" ++ sEx.date ++ "_" ++ sEx.startTime ++ ".json")
        = "data/p1_2024-01-02_10-20-30.json" := by decide
    exact hpath ▸ (survey_save_spec sEx "data").2 (List.cons_ne_nil _ _)

/-- C4: `SurveyManager.saveSurvey` on an active manager stamps the active
survey's end time, then saves it: on success (non-empty fields) the
manager clears the active survey and reports success; on failure (empty
fields) the stamped survey stays active and failure is reported. -/
theorem manager_save_spec (m : SurveyManager) (s : Survey) (now : DateTime)
    (h : m.survey = some s) :
    (s.projectedFields = [] →
      m.saveSurvey now =
        .ok (false, { m with survey := some { s with endTime := strftimeHMS now } }, [])) ∧
    (s.projectedFields ≠ [] →
      m.saveSurvey now =
        .ok (true, { m with survey := none },
          [⟨osPathJoin m.data_path
              (s.participant ++ "_" ++ s.date ++ "_" ++ s.startTime ++ ".json"),
            (s.endTimeNow now).toDict⟩])) :=
  ⟨SurveyManager.saveSurvey_active_empty m s now h,
   SurveyManager.saveSurvey_active_nonempty m s now h⟩

/-- Witness for C4 at concrete managers. -/
theorem manager_save_spec_witness :
    mgrEmptyEx.saveSurvey tEx =
      .ok (false,
        { mgrEmptyEx with survey := some { sEmptyEx with endTime := strftimeHMS tEx } }, []) ∧
    mgrFullEx.saveSurvey tEx =
      .ok (true, { mgrFullEx with survey := none },
        [⟨osPathJoin mgrFullEx.data_path
            (sEx.participant ++ "_" ++ sEx.date ++ "_" ++ sEx.startTime ++ ".json"),
          (sEx.endTimeNow tEx).toDict⟩]) :=
  ⟨(manager_save_spec mgrEmptyEx sEmptyEx tEx rfl).1 rfl,
   (manager_save_spec mgrFullEx sEx tEx rfl).2 (List.cons_ne_nil _ _)⟩

/-- C5: when a survey is already active, `newSurvey` returns `False` and
leaves the manager — in particular the originally active survey —
unchanged. -/
theorem new_survey_already_active (m : SurveyManager) (s : Survey) (p : String)
    (now : DateTime) (h : m.survey = some s) :
    m.newSurvey p now = (some false, m) ∧
    (m.newSurvey p now).2.survey = some s := by
  have h1 : m.newSurvey p now = (some false, m) := by
    unfold SurveyManager.newSurvey
    rw [h]
  exact ⟨h1, by rw [h1]; exact h⟩

/-- Witness for C5 at a concrete active manager. -/
theorem new_survey_already_active_witness :
    mgrFullEx.newSurvey "p1" tEx = (some false, mgrFullEx) ∧
    (mgrFullEx.newSurvey "p1" tEx).2.survey = some sEx :=
  new_survey_already_active mgrFullEx sEx "p1" tEx rfl

/-- C6: when idle and the participant is not in the configuration,
`newSurvey` leaves the manager idle and unchanged, but returns Python
`None` (it falls off the end of the unknown-participant branch) rather
than the boolean `False` its docstring promises. -/
theorem new_survey_unknown_participant (m : SurveyManager) (p : String)
    (now : DateTime) (h1 : m.survey = none) (h2 : m.config.get? p = none) :
    m.newSurvey p now = (none, m) ∧
    (m.newSurvey p now).1 ≠ some false ∧
    (m.newSurvey p now).2.survey = none := by
  have h : m.newSurvey p now = (none, m) := by
    unfold SurveyManager.newSurvey
    rw [h1, h2]
  refine ⟨h, by rw [h]; simp, by rw [h]; exact h1⟩

/-- Witness for C6 at a concrete idle manager and the participant
`"nobody"`. -/
theorem new_survey_unknown_participant_witness :
    mgrIdleEx.newSurvey "nobody" tEx = (none, mgrIdleEx) ∧
    (mgrIdleEx.newSurvey "nobody" tEx).1 ≠ some false ∧
    (mgrIdleEx.newSurvey "nobody" tEx).2.survey = none :=
  new_survey_unknown_participant mgrIdleEx "nobody" tEx rfl rfl

/-- C7 counterexample: a failing `SurveyManager.saveSurvey` does move the
survey — the call reports failure yet the retained survey's `endTime` has
changed from `""` to the current time. -/
theorem manager_save_failure_changes_endTime :
    mgrEmptyEx.saveSurvey tEx =
      .ok (false,
        { mgrEmptyEx with survey := some { sEmptyEx with endTime := "11-30-45" } }, []) ∧
    sEmptyEx.endTime ≠ "11-30-45" :=
  ⟨rfl, by decide⟩

/-- C7 amended: when `SurveyManager.saveSurvey` fails, the manager stays
active retaining the same survey except that its `endTime` has been
restamped to the current time; `participant`, `config`, `date`,
`startTime` and `projectedFields` are unchanged, and no file is
written. -/
theorem manager_save_failure_frame (m : SurveyManager) (s : Survey)
    (now : DateTime) (h : m.survey = some s) (he : s.projectedFields = []) :
    m.saveSurvey now =
      .ok (false, { m with survey := some { s with endTime := strftimeHMS now } }, []) :=
  SurveyManager.saveSurvey_active_empty m s now h he

/-- Witness for the amended C7 at a concrete manager. -/
theorem manager_save_failure_frame_witness :
    mgrEmptyEx.saveSurvey tEx =
      .ok (false,
        { mgrEmptyEx with survey := some { sEmptyEx with endTime := strftimeHMS tEx } }, []) :=
  manager_save_failure_frame mgrEmptyEx sEmptyEx tEx rfl rfl

/-- C9: calling `SurveyManager.saveSurvey` while idle raises
`AttributeError` (from `None.endTimeNow()`), an uncaught fault rather
than a reported boolean failure. -/
theorem manager_save_idle_raises (m : SurveyManager) (now : DateTime)
    (h : m.survey = none) :
    m.saveSurvey now =
      .error (.attributeError "NoneType object has no attribute endTimeNow") := by
  unfold SurveyManager.saveSurvey
  rw [h]

/-- Witness for C9 at a concrete idle manager. -/
theorem manager_save_idle_raises_witness :
    mgrIdleEx.saveSurvey tEx =
      .error (.attributeError "NoneType object has no attribute endTimeNow") :=
  manager_save_idle_raises mgrIdleEx tEx rfl

/-- C8: `Quality.fromDict` succeeds exactly when all five keys are present,
in which case it populates all five fields from the mapping; when a key is
absent it fails with `KeyError` (the missing-field error) naming an absent
key. -/
theorem quality_fromDict_spec (q0 : Quality) (d : Dict) :
    ((∃ q, Quality.fromDict q0 d = .ok q) ↔
      ((d.get? "intensity").isSome ∧ (d.get? "naturalness").isSome ∧
       (d.get? "pain").isSome ∧ (d.get? "depth").isSome ∧ (d.get? "type").isSome)) ∧
    (∀ i n p dep t,
      d.get? "intensity" = some i → d.get? "naturalness" = some n →
      d.get? "pain" = some p → d.get? "depth" = some dep → d.get? "type" = some t →
      Quality.fromDict q0 d = .ok ⟨i, n, p, dep, t⟩) ∧
    (∀ e, Quality.fromDict q0 d = .error e →
      (d.get? "intensity" = none ∧ e = .keyError "intensity") ∨
      (d.get? "naturalness" = none ∧ e = .keyError "naturalness") ∨
      (d.get? "pain" = none ∧ e = .keyError "pain") ∨
      (d.get? "depth" = none ∧ e = .keyError "depth") ∨
      (d.get? "type" = none ∧ e = .keyError "type")) := by
  rcases h1 : d.get? "intensity" with _ | i
  · have he : Quality.fromDict q0 d = .error (.keyError "intensity") := by
      unfold Quality.fromDict Dict.item
      rw [h1]
      rfl
    simp [he]
  rcases h2 : d.get? "naturalness" with _ | n
  · have he : Quality.fromDict q0 d = .error (.keyError "naturalness") := by
      unfold Quality.fromDict Dict.item
      rw [h1, h2]
      rfl
    simp [he]
  rcases h3 : d.get? "pain" with _ | p
  · have he : Quality.fromDict q0 d = .error (.keyError "pain") := by
      unfold Quality.fromDict Dict.item
      rw [h1, h2, h3]
      rfl
    simp [he]
  rcases h4 : d.get? "depth" with _ | dep
  · have he : Quality.fromDict q0 d = .error (.keyError "depth") := by
      unfold Quality.fromDict Dict.item
      rw [h1, h2, h3, h4]
      rfl
    simp [he]
  rcases h5 : d.get? "type" with _ | t
  · have he : Quality.fromDict q0 d = .error (.keyError "type") := by
      unfold Quality.fromDict Dict.item
      rw [h1, h2, h3, h4, h5]
      rfl
    simp [he]
  · have he : Quality.fromDict q0 d = .ok ⟨i, n, p, dep, t⟩ := by
      unfold Quality.fromDict Dict.item
      rw [h1, h2, h3, h4, h5]
      rfl
    simp [he]
    exact fun _ _ _ _ _ e1 e2 e3 e4 e5 => ⟨e1, e2, e3, e4, e5⟩

/-- Witness for C8: reconstruction from a complete concrete record. -/
theorem quality_fromDict_spec_witness :
    Quality.fromDict qEx (Quality.toDict qEx) =
      .ok ⟨.n 8, .n 5, .n 9, .s "deep", .s "sharp"⟩ :=
  (quality_fromDict_spec qEx (Quality.toDict qEx)).2.1
    (.n 8) (.n 5) (.n 9) (.s "deep") (.s "sharp") rfl rfl rfl rfl rfl

end Survey3D
